import Mathlib

/-!
Verification development for the Radar signal pipeline (src/Radar/radar.py).

The Python source is shallowly embedded: pure functions become Lean
functions over `String` / `List Char` / `Nat` / `Int`; the stateful run
loop of `run_radar` becomes an explicit fold over a run state.  Two
library operations of the source are abstracted as explicit inputs,
because they are standard-library parsing rather than repository code:

* `urlparse(link).netloc` (inside `domain_of`): every place the source
  derives a domain from a link, the embedding takes the already-extracted
  lowercased domain string as a separate argument (`dom`), with the empty
  string standing for an unparseable link;
* `datetime` parsing of the `published` field: the embedding takes the
  age of the item in whole seconds relative to "now" (`ageSecs`), with
  `none` standing for an unparseable timestamp. `timedelta.days` floors,
  which `Int.fdiv` reproduces.

Character classes mirror the ASCII behaviour of Python `str.lower`,
`re` word characters `[a-zA-Z0-9_]`, digits and whitespace.
-/

/-! ## Character classes and low-level text search -/

/-- Characters kept by `slugify` (regex `[a-z0-9]` after lowercasing). -/
def isSlugChar (c : Char) : Bool :=
  ('a' ≤ c && c ≤ 'z') || ('0' ≤ c && c ≤ '9')

/-- Python regex word character `\w` restricted to ASCII: `[a-zA-Z0-9_]`. -/
def isWordChar (c : Char) : Bool :=
  ('a' ≤ c && c ≤ 'z') || ('A' ≤ c && c ≤ 'Z') || ('0' ≤ c && c ≤ '9') || c == '_'

/-- Python regex digit `\d` restricted to ASCII. -/
def isDigitCh (c : Char) : Bool := '0' ≤ c && c ≤ '9'

/-- Python regex whitespace `\s` restricted to ASCII. -/
def isSpaceCh (c : Char) : Bool :=
  c == ' ' || c == '\t' || c == '\n' || c == '\r' || c == '\x0b' || c == '\x0c'

/-- Does the word list `p` occur at the head of `t`? -/
def startsWithCL : List Char → List Char → Bool
  | [], _ => true
  | _ :: _, [] => false
  | a :: as, b :: bs => a == b && startsWithCL as bs

/-- Does `p` occur as a contiguous substring of `t`? -/
def containsCL (p : List Char) : List Char → Bool
  | [] => startsWithCL p []
  | c :: cs => startsWithCL p (c :: cs) || containsCL p cs

/-- Does `t` end with `p`? -/
def endsWithCL (p t : List Char) : Bool :=
  startsWithCL p.reverse t.reverse

/-- Does `w` occur at the head of `t` with a word boundary right after it
(end of text or a non-word character)?  Mirrors the trailing `\b` of the
source regexes. -/
def wordAtCL (w t : List Char) : Bool :=
  startsWithCL w t &&
    (match t.drop w.length with
     | [] => true
     | c :: _ => !isWordChar c)

/-- Scan `t` for an occurrence of `w` flanked by word boundaries.  `prev`
is the character just before the current position (`none` at the start
of the text). -/
def wordSearchCL (w : List Char) : Option Char → List Char → Bool
  | _, [] => false
  | prev, c :: cs =>
    ((match prev with
      | none => true
      | some p => !isWordChar p) && wordAtCL w (c :: cs))
    || wordSearchCL w (some c) cs

/-- Case-insensitive search for `\b w \b` in `text` (the source compiles
its keyword patterns with `re.I`; the patterns themselves are lowercase). -/
def wordMatch (w text : String) : Bool :=
  wordSearchCL w.toList none (text.toList.map Char.toLower)

/-- Case-sensitive variant, used for the `score_source` blog check whose
regex is compiled without `re.I`. -/
def wordMatchCS (w text : String) : Bool :=
  wordSearchCL w.toList none text.toList

/-- Does any of the given keywords match `text` with word boundaries?
Mirrors a source regex of the shape `\b(w1|w2|...)\b` under `re.I`. -/
def wordAny (ws : List String) (text : String) : Bool :=
  ws.any (fun w => wordMatch w text)

/-- Does `\$\s?\d` match at the head of the text? -/
def moneyAtCL : List Char → Bool
  | a :: b :: rest =>
    a == '$' && (isDigitCh b ||
      (isSpaceCh b && (match rest with
                       | d :: _ => isDigitCh d
                       | [] => false)))
  | _ => false

/-- Search for `\$\s?\d` anywhere in the text. -/
def moneySearchCL : List Char → Bool
  | [] => false
  | c :: cs => moneyAtCL (c :: cs) || moneySearchCL cs

/-- Search for an `m` followed by a word boundary (regex `m\b`). -/
def mEndSearchCL : List Char → Bool
  | [] => false
  | c :: cs =>
    (c == 'm' && (match cs with
                  | [] => true
                  | d :: _ => !isWordChar d))
    || mEndSearchCL cs

/-- The monetary-amount alternative of `score_budget`:
regex `\$\s?\d|million|m\b` under `re.I`. -/
def hasMoneyPattern (text : String) : Bool :=
  let t := text.toList.map Char.toLower
  moneySearchCL t || containsCL "million".toList t || mEndSearchCL t

/-! ## Configuration constants (radar.py lines 21-33) -/

def DEFAULT_THRESHOLD : Int := 70
def W_RECENCY_MAX : Nat := 25
def W_BUDGET_MAX : Nat := 20
def W_STEM_MAX : Nat := 20
def W_FIT_MAX : Nat := 20
def W_SRC_MAX : Nat := 15

def HIGH_TRUST_TLDS : List String := [".k12.", ".gov", ".edu"]

def KNOWN_NEWS_HINTS : List String :=
  ["news", "chronicle", "gazette", "press", "daily", "times", "dispatch",
   "beacon", "abc", "nbc", "cbs", "fox", "mlive", "freep"]

/-! ## slugify and the Signal fingerprint -/

/-- Replace every maximal run of non-`[a-z0-9]` characters by a single
`-` (regex `re.sub(r"[^a-z0-9]+", "-", t)` on the lowercased text). -/
def collapseRuns : List Char → List Char
  | [] => []
  | c :: cs =>
    if isSlugChar c then c :: collapseRuns cs
    else if (collapseRuns cs).head? = some '-' then collapseRuns cs
    else '-' :: collapseRuns cs

/-- Python `str.strip("-")`: drop leading and trailing `-` characters. -/
def stripDashes (l : List Char) : List Char :=
  (l.dropWhile (fun c => c == '-')).rdropWhile (fun c => c == '-')

/-- `slugify` (radar.py lines 87-90): lowercase, collapse non-alphanumeric
runs to `-`, strip the dashes at both ends. -/
def slugify (text : String) : String :=
  String.mk (stripDashes (collapseRuns (text.toList.map Char.toLower)))

/-- The Signal id assigned at radar.py line 442:
`slugify(f"{st}-{dist}-{title}-{link}")[:128]`. -/
def signal_id (st dist title link : String) : String :=
  String.mk ((slugify (st ++ "-" ++ dist ++ "-" ++ title ++ "-" ++ link)).toList.take 128)

/-! ## Trigger classifier (radar.py lines 244-256) -/

def trig_funding : String → Bool :=
  wordAny ["levy", "bond", "millage", "capital", "facility", "facilities",
           "construction", "maker", "makerspace"]

def trig_policy : String → Bool :=
  wordAny ["strategic plan", "curriculum", "policy",
           "computer science requirement", "plan"]

def trig_people : String → Bool :=
  wordAny ["superintendent", "cte director", "stem coordinator", "hired",
           "appointed", "appointment"]

def trig_programs : String → Bool :=
  wordAny ["robotics", "vex", "first robotics", "stem night", "engineering",
           "makerspace", "duckbowl"]

def trig_procurement : String → Bool :=
  wordAny ["rfp", "request for proposal", "quote", "bid", "solicitation",
           "purchase"]

/-- The ordered category table `TRIGGERS` (a Python dict iterated in
insertion order). -/
def TRIGGERS : List (String × (String → Bool)) :=
  [("Funding & Facilities", trig_funding),
   ("Policy & Strategy", trig_policy),
   ("People Moves", trig_people),
   ("Programs & Press", trig_programs),
   ("Procurement", trig_procurement)]

/-- `classify_trigger`: return the first category whose pattern matches,
else the fallback `Other`. -/
def classify_trigger (text : String) : String :=
  match TRIGGERS.find? (fun p => p.2 text) with
  | some p => p.1
  | none => "Other"

/-! ## Scoring (radar.py lines 259-308) -/

/-- `score_recency`: `none` models an unparseable `published` value
(the `except` branch returning 0); `some a` is the age in whole seconds,
and `a.fdiv 86400` is `timedelta.days` (which floors). -/
def score_recency (ageSecs : Option Int) : Nat :=
  match ageSecs with
  | none => 0
  | some a =>
    if Int.fdiv a 86400 ≤ 3 then W_RECENCY_MAX
    else if Int.fdiv a 86400 ≤ 7 then 20
    else if Int.fdiv a 86400 ≤ 30 then 12
    else if Int.fdiv a 86400 ≤ 90 then 6
    else 0

/-- `score_budget`: financial keywords +12, procurement keywords +8,
monetary amount +6, clamped to `W_BUDGET_MAX`. -/
def score_budget (text : String) : Nat :=
  let s1 := if wordAny ["levy", "bond", "millage", "budget", "appropriation"] text then 12 else 0
  let s2 := if wordAny ["rfp", "request for proposal", "bid", "solicitation", "quote"] text then 8 else 0
  let s3 := if hasMoneyPattern text then 6 else 0
  min (s1 + s2 + s3) W_BUDGET_MAX

/-- `score_stem`: `robot(ic|ics)` +12, `stem` +8, engineering terms +6,
clamped to `W_STEM_MAX`. -/
def score_stem (text : String) : Nat :=
  let s1 := if wordAny ["robotic", "robotics"] text then 12 else 0
  let s2 := if wordAny ["stem"] text then 8 else 0
  let s3 := if wordAny ["engineering", "makerspace", "cte", "career technical education"] text then 6 else 0
  min (s1 + s2 + s3) W_STEM_MAX

/-- `score_fit`: the fit rating looked up for (state, district) is clamped
to [0, 100] and rescaled by `round(fs * 0.2)`.  For an integer rating the
float expression `fs * 0.2` is never half-way between integers (its exact
value `fs / 5` has fractional part in 0, .2, .4, .6, .8 and the double
rounding error is far below the .1 gap), so Python `round` equals
`(fs + 2) / 5` in integer arithmetic on the clamped value. -/
def score_fit (fitOf : String → String → Int) (state district : String) : Nat :=
  ((max 0 (min 100 (fitOf state district))).toNat + 2) / 5

/-- `score_source` (radar.py lines 289-298), as a function of the already
extracted domain `dom = domain_of(link)` (lowercased netloc, `""` when no
domain can be parsed).  Note the high-trust test in the source is
`dom.endswith(HIGH_TRUST_TLDS) or any(tld in dom for tld in HIGH_TRUST_TLDS)`:
ends-with OR substring containment. -/
def score_source (dom : String) : Nat :=
  if dom = "" then 0
  else if HIGH_TRUST_TLDS.any (fun t => endsWithCL t.toList dom.toList)
          || HIGH_TRUST_TLDS.any (fun t => containsCL t.toList dom.toList) then W_SRC_MAX
  else if KNOWN_NEWS_HINTS.any (fun h => containsCL h.toList dom.toList) then 12
  else if wordMatchCS "blog" dom || wordMatchCS "medium" dom || wordMatchCS "substack" dom then 4
  else 8

/-- The five sub-scores of one Signal (the `breakdown` dict). -/
structure Breakdown where
  recency : Nat
  budget : Nat
  stem : Nat
  fit : Nat
  source : Nat
deriving DecidableEq, Repr

/-- `compute_signal_score` (radar.py lines 300-308).  `fitOf` abstracts
the `fit_score_for` lookup in the Scout database (including its default
of 50); `dom` and `ageSecs` abstract `urlparse` and timestamp parsing of
`link` / `published` as explained at the top of the file. -/
def compute_signal_score (fitOf : String → String → Int)
    (state district title link : String) (dom : String) (ageSecs : Option Int) :
    Nat × Breakdown :=
  let text := title ++ " " ++ link
  let recSc := score_recency ageSecs
  let budSc := score_budget text
  let stmSc := score_stem text
  let fitSc := score_fit fitOf state district
  let srcSc := score_source dom
  (recSc + budSc + stmSc + fitSc + srcSc,
   { recency := recSc, budget := budSc, stem := stmSc, fit := fitSc, source := srcSc })

/-! ## Pipeline data model (run_radar, radar.py lines 372-492) -/

/-- A persisted Signal record after the current schema (the dict built at
radar.py lines 446-458). -/
structure Signal where
  id : String
  state : String
  district : String
  source_county : String
  title : String
  link : String
  published : String
  trigger : String
  score : Nat
  breakdown : Breakdown
  created_at : String
deriving DecidableEq, Repr

/-- A pre-existing Signal as loaded from disk, possibly written by an
older schema: `trigger` and `breakdown` may be absent (`none`), and a
very old record may also lack `score`.  String fields absent in the JSON
are read through `s.get(..., "")` in the source, which the total `String`
fields model.  `dom` and `pubAge` are the parse abstractions for this
record's `link` and `published` (see the file header). -/
structure StoredSignal where
  id : String
  state : String
  district : String
  source_county : String
  title : String
  link : String
  published : String
  score : Option Int
  created_at : String
  trigger : Option String
  breakdown : Option Breakdown
  dom : String
  pubAge : Option Int
deriving DecidableEq, Repr

/-- The projection appended to the intake queue at radar.py lines 466-476
(no `id`, no `breakdown`). -/
structure IntakeRecord where
  state : String
  district : String
  source_county : String
  title : String
  link : String
  trigger : String
  score : Nat
  published : String
  created_at : String
deriving DecidableEq, Repr

/-- One fetched feed item as it reaches the per-item loop (radar.py
line 428), together with the watch-target fields in scope there and the
parse abstractions `dom` / `ageSecs` for its link and published date. -/
structure FeedItem where
  st : String
  dist : String
  source_county : String
  title : String
  link : String
  published : String
  dom : String
  ageSecs : Option Int
deriving DecidableEq, Repr

/-- Run-scoped configuration: `--since-days` and `--threshold`. -/
structure RadarConfig where
  sinceDays : Int
  threshold : Int
deriving DecidableEq, Repr

/-- The mutable state of one run: the signal store, the membership index
`existing_ids`, the list of signals inserted this run, and the intake
queue. -/
structure RunState where
  signals : List Signal
  existingIds : List String
  newSignals : List Signal
  intake : List IntakeRecord
deriving DecidableEq, Repr

/-! ## Schema migration (radar.py lines 383-401) -/

/-- Migrate one stored record: backfill `trigger` from the classifier and
`breakdown` from the scorer when the field is absent; touch nothing else. -/
def migrate_signal (fitOf : String → String → Int) (s : StoredSignal) : StoredSignal :=
  let s1 := if s.trigger.isNone
            then { s with trigger := some (classify_trigger (s.title ++ " " ++ s.link)) }
            else s
  if s1.breakdown.isNone
  then { s1 with
         breakdown := some
           (compute_signal_score fitOf s.state s.district s.title s.link s.dom s.pubAge).2 }
  else s1

/-! ## The per-item loop and the run (radar.py lines 428-476) -/

/-- The freshness filter at radar.py lines 433-438: drop the item when
its publish instant lies before `now - since_days` days.  An unparseable
date is replaced by "now" and therefore always passes. -/
def too_old (cfg : RadarConfig) (it : FeedItem) : Bool :=
  match it.ageSecs with
  | none => false
  | some a => decide (a > cfg.sinceDays * 86400)

/-- Process one fetched item: freshness filter, classify, score, compute
the fingerprint, silently drop it when the id is already known, otherwise
append to the store (and to the intake queue when the score clears the
threshold). `now` is the `created_at` timestamp string of this run. -/
def process_item (cfg : RadarConfig) (fitOf : String → String → Int) (now : String)
    (st : RunState) (it : FeedItem) : RunState :=
  if too_old cfg it then st
  else
    let trig := classify_trigger (it.title ++ " " ++ it.link)
    let sb := compute_signal_score fitOf it.st it.dist it.title it.link it.dom it.ageSecs
    let sigId := signal_id it.st it.dist it.title it.link
    if st.existingIds.contains sigId then st
    else
      let rec0 : Signal :=
        { id := sigId, state := it.st, district := it.dist,
          source_county := it.source_county, title := it.title, link := it.link,
          published := it.published, trigger := trig, score := sb.1,
          breakdown := sb.2, created_at := now }
      { signals := st.signals ++ [rec0],
        existingIds := sigId :: st.existingIds,
        newSignals := st.newSignals ++ [rec0],
        intake :=
          if cfg.threshold ≤ (sb.1 : Int)
          then st.intake ++
                 [{ state := it.st, district := it.dist,
                    source_county := it.source_county, title := it.title,
                    link := it.link, trigger := trig, score := sb.1,
                    published := it.published, created_at := now }]
          else st.intake }

/-- One pipeline run over an already-migrated store: seed `existing_ids`
from the loaded store (radar.py line 403) and fold the per-item loop over
the flattened, per-engine-truncated stream of fetched items. -/
def run_radar (cfg : RadarConfig) (fitOf : String → String → Int) (now : String)
    (db : List Signal) (intake0 : List IntakeRecord) (items : List FeedItem) : RunState :=
  items.foldl (process_item cfg fitOf now)
    { signals := db, existingIds := db.map (fun s => s.id),
      newSignals := [], intake := intake0 }

/-- The intake projection of a freshly inserted Signal. -/
def intake_of (s : Signal) : IntakeRecord :=
  { state := s.state, district := s.district, source_county := s.source_county,
    title := s.title, link := s.link, trigger := s.trigger, score := s.score,
    published := s.published, created_at := s.created_at }

/-! ## Report generator (write_report, radar.py lines 494-509) -/

/-- The lines of the rendered report.  `now` is the
`datetime.now().strftime(...)` header timestamp of the invocation. -/
def report_lines (now : String) (db : List Signal) (threshold : Int) : List String :=
  ["# Radar Report — " ++ now,
   "_Threshold for handoff: " ++ toString threshold ++ "_",
   ""] ++
  ((db.mergeSort (fun a b => decide (b.created_at ≤ a.created_at))).take 500).flatMap
    (fun s =>
      ["- **" ++ s.district ++ " (" ++ s.state ++ ")** — " ++ s.title ++ "  ",
       "  - " ++ s.trigger ++ " • score **" ++ toString s.score ++ "** (r"
         ++ toString s.breakdown.recency ++ ", b" ++ toString s.breakdown.budget
         ++ ", s" ++ toString s.breakdown.stem ++ ", f" ++ toString s.breakdown.fit
         ++ ", c" ++ toString s.breakdown.source ++ ") • "
         ++ String.mk (s.published.toList.take 16) ++ "  ",
       "  - " ++ s.link])

/-- The full report text: `"\n".join(lines)`. -/
def write_report (now : String) (db : List Signal) (threshold : Int) : String :=
  String.intercalate "\n" (report_lines now db threshold)

/-! ## Spec-side comparison definition for the source-trust sub-score -/

/-- Modelled from the spec's words (section 4.2, Source trust): full
score 15 "if domain ends in a high-trust suffix set"; the remaining
branches as in the source.  Used only to compare the spec's ends-in
reading with the source's ends-with-or-contains test. -/
def score_source_spec (dom : String) : Nat :=
  if dom = "" then 0
  else if HIGH_TRUST_TLDS.any (fun t => endsWithCL t.toList dom.toList) then W_SRC_MAX
  else if KNOWN_NEWS_HINTS.any (fun h => containsCL h.toList dom.toList) then 12
  else if wordMatchCS "blog" dom || wordMatchCS "medium" dom || wordMatchCS "substack" dom then 4
  else 8

/-! ## Helper lemmas: sub-score bounds -/

theorem score_recency_le_max (a : Option Int) : score_recency a ≤ 25 := by
  cases a with
  | none => simp [score_recency]
  | some a =>
    simp only [score_recency, W_RECENCY_MAX]
    split_ifs <;> omega

theorem score_budget_le_max (t : String) : score_budget t ≤ 20 := by
  simp only [score_budget, W_BUDGET_MAX]
  omega

theorem score_stem_le_max (t : String) : score_stem t ≤ 20 := by
  simp only [score_stem, W_STEM_MAX]
  omega

theorem score_fit_le_max (fitOf : String → String → Int) (st d : String) :
    score_fit fitOf st d ≤ 20 := by
  unfold score_fit
  have h1 : (max 0 (min 100 (fitOf st d))).toNat ≤ 100 := by
    rw [Int.toNat_le]
    exact max_le (by norm_num) (min_le_left _ _)
  calc ((max 0 (min 100 (fitOf st d))).toNat + 2) / 5
      ≤ 102 / 5 := Nat.div_le_div_right (by omega)
    _ = 20 := by norm_num

theorem score_source_le_max (dom : String) : score_source dom ≤ 15 := by
  unfold score_source W_SRC_MAX
  split_ifs <;> omega

/-- C4: for all inputs to the scorer (arbitrary title, link, domain,
published age and fit rating), the returned total satisfies
`0 ≤ total ≤ 100` and equals the sum of the five sub-scores in the
returned breakdown. -/
theorem compute_signal_score_bounds (fitOf : String → String → Int)
    (state district title link dom : String) (ageSecs : Option Int) :
    0 ≤ (compute_signal_score fitOf state district title link dom ageSecs).1 ∧
    (compute_signal_score fitOf state district title link dom ageSecs).1 ≤ 100 ∧
    (compute_signal_score fitOf state district title link dom ageSecs).1 =
      (compute_signal_score fitOf state district title link dom ageSecs).2.recency +
      (compute_signal_score fitOf state district title link dom ageSecs).2.budget +
      (compute_signal_score fitOf state district title link dom ageSecs).2.stem +
      (compute_signal_score fitOf state district title link dom ageSecs).2.fit +
      (compute_signal_score fitOf state district title link dom ageSecs).2.source := by
  refine ⟨Nat.zero_le _, ?_, rfl⟩
  have h1 := score_recency_le_max ageSecs
  have h2 := score_budget_le_max (title ++ " " ++ link)
  have h3 := score_stem_le_max (title ++ " " ++ link)
  have h4 := score_fit_le_max fitOf state district
  have h5 := score_source_le_max dom
  simp only [compute_signal_score]
  omega

/-- C6: `classify_trigger` evaluates the fixed ordered category list in
order (Funding & Facilities, Policy & Strategy, People Moves,
Programs & Press, Procurement) and returns the FIRST category whose
pattern matches; for every input text it returns exactly one member of
the fixed set extended with the fallback `Other`, and never fails. -/
theorem classify_trigger_first_match_total (text : String) :
    classify_trigger text =
      (if trig_funding text then "Funding & Facilities"
       else if trig_policy text then "Policy & Strategy"
       else if trig_people text then "People Moves"
       else if trig_programs text then "Programs & Press"
       else if trig_procurement text then "Procurement"
       else "Other") ∧
    classify_trigger text ∈
      ["Funding & Facilities", "Policy & Strategy", "People Moves",
       "Programs & Press", "Procurement", "Other"] := by
  have heq : classify_trigger text =
      (if trig_funding text then "Funding & Facilities"
       else if trig_policy text then "Policy & Strategy"
       else if trig_people text then "People Moves"
       else if trig_programs text then "Programs & Press"
       else if trig_procurement text then "Procurement"
       else "Other") := by
    by_cases h1 : trig_funding text <;> by_cases h2 : trig_policy text <;>
      by_cases h3 : trig_people text <;> by_cases h4 : trig_programs text <;>
      by_cases h5 : trig_procurement text <;>
      simp [classify_trigger, TRIGGERS, List.find?_cons, h1, h2, h3, h4, h5]
  refine ⟨heq, ?_⟩
  rw [heq]
  split_ifs <;> simp

/-- C8 counterexample: `score_source` gives the full 15 to the domain
`a.gov.evil.com`, which does not END in any high-trust suffix (it merely
CONTAINS `.gov`); the spec-side ends-in-only reading gives 8.  So the
claim that the source sub-score is 15 exactly when the domain ends in a
high-trust suffix is false of the code. -/
theorem score_source_contains_counterexample :
    score_source "a.gov.evil.com" = 15 ∧
    HIGH_TRUST_TLDS.any (fun t => endsWithCL t.toList "a.gov.evil.com".toList) = false ∧
    score_source_spec "a.gov.evil.com" = 8 := by
  refine ⟨by decide, by decide, by decide⟩

/-- C8 (amended): for every domain, the source sub-score is 15 exactly
when the domain ends with OR contains one of the high-trust markers
`.k12.`, `.gov`, `.edu` (the ends-with test is subsumed by containment);
otherwise 12 if the domain contains a known news-outlet hint, 4 if it
matches blog/medium/substack as a whole word, 8 as the neutral default,
and 0 when no domain could be parsed (empty domain). -/
theorem score_source_cases (dom : String) :
    (dom = "" → score_source dom = 0) ∧
    (dom ≠ "" →
      (score_source dom = 15 ↔
        (HIGH_TRUST_TLDS.any (fun t => endsWithCL t.toList dom.toList)
          || HIGH_TRUST_TLDS.any (fun t => containsCL t.toList dom.toList)) = true)) ∧
    (dom ≠ "" →
      (HIGH_TRUST_TLDS.any (fun t => endsWithCL t.toList dom.toList)
        || HIGH_TRUST_TLDS.any (fun t => containsCL t.toList dom.toList)) = false →
      KNOWN_NEWS_HINTS.any (fun h => containsCL h.toList dom.toList) = true →
      score_source dom = 12) ∧
    (dom ≠ "" →
      (HIGH_TRUST_TLDS.any (fun t => endsWithCL t.toList dom.toList)
        || HIGH_TRUST_TLDS.any (fun t => containsCL t.toList dom.toList)) = false →
      KNOWN_NEWS_HINTS.any (fun h => containsCL h.toList dom.toList) = false →
      (wordMatchCS "blog" dom || wordMatchCS "medium" dom || wordMatchCS "substack" dom) = true →
      score_source dom = 4) ∧
    (dom ≠ "" →
      (HIGH_TRUST_TLDS.any (fun t => endsWithCL t.toList dom.toList)
        || HIGH_TRUST_TLDS.any (fun t => containsCL t.toList dom.toList)) = false →
      KNOWN_NEWS_HINTS.any (fun h => containsCL h.toList dom.toList) = false →
      (wordMatchCS "blog" dom || wordMatchCS "medium" dom || wordMatchCS "substack" dom) = false →
      score_source dom = 8) := by
  refine ⟨fun h => by simp [score_source, h], ?_, ?_, ?_, ?_⟩ <;>
    intro h0 <;> unfold score_source W_SRC_MAX <;> rw [if_neg h0]
  · constructor
    · intro h15
      by_contra hA
      rw [Bool.not_eq_true] at hA
      rw [hA] at h15
      simp only [Bool.false_eq_true, if_false] at h15
      split_ifs at h15 <;> omega
    · intro hA
      rw [hA]
      simp
  · intro hA hN
    rw [hA, hN]
    simp
  · intro hA hN hB
    rw [hA, hN, hB]
    simp
  · intro hA hN hB
    rw [hA, hN, hB]
    simp

/-- Witness for `score_source_cases` at a concrete high-trust domain. -/
theorem score_source_cases_witness : score_source "x.example.gov" = 15 :=
  ((score_source_cases "x.example.gov").2.1 (by decide)).mpr (by decide)

/-- C2 counterexample: two distinct titles with the same region,
organization and link produce the SAME Signal id, because `slugify`
collapses case and punctuation before the fingerprint is taken.  This
falsifies the injectivity half of the claim (any single differing input
changes the id; no collision across distinct titles with the same link). -/
theorem signal_id_collision :
    ("STEM Day!" : String) ≠ "STEM Day?" ∧
    signal_id "Ohio" "Springfield" "STEM Day!" "http://x.gov" =
      signal_id "Ohio" "Springfield" "STEM Day?" "http://x.gov" := by
  refine ⟨by decide, by decide⟩

/-- C2 (amended): the Signal id is a pure deterministic function of the
(region/state, organization/district, title, link) tuple — recomputing it
from equal inputs always reproduces the same value.  Distinct tuples may
however collide: the slug is case- and punctuation-insensitive and is
truncated to 128 characters, so a differing input need not change the id
(see `signal_id_collision`). -/
theorem signal_id_deterministic (st dist title link st2 dist2 title2 link2 : String)
    (h1 : st = st2) (h2 : dist = dist2) (h3 : title = title2) (h4 : link = link2) :
    signal_id st dist title link = signal_id st2 dist2 title2 link2 := by
  rw [h1, h2, h3, h4]

/-- Witness for `signal_id_deterministic` at concrete inputs. -/
theorem signal_id_deterministic_witness :
    signal_id "Ohio" "Springfield" "Robotics Grant" "http://x.gov" =
      signal_id "Ohio" "Springfield" "Robotics Grant" "http://x.gov" :=
  signal_id_deterministic "Ohio" "Springfield" "Robotics Grant" "http://x.gov"
    "Ohio" "Springfield" "Robotics Grant" "http://x.gov" rfl rfl rfl rfl

/-! ## Helper lemmas: slug character set and the stripped ends -/

theorem collapseRuns_mem (l : List Char) :
    ∀ c ∈ collapseRuns l, isSlugChar c = true ∨ c = '-' := by
  induction l with
  | nil => intro c hc; simp [collapseRuns] at hc
  | cons a t ih =>
    intro c hc
    by_cases ha : isSlugChar a
    · simp only [collapseRuns, ha, if_true] at hc
      rcases List.mem_cons.mp hc with rfl | hc
      · exact Or.inl ha
      · exact ih c hc
    · simp only [collapseRuns, ha, Bool.false_eq_true, if_false] at hc
      by_cases hh : (collapseRuns t).head? = some '-'
      · rw [if_pos hh] at hc; exact ih c hc
      · rw [if_neg hh] at hc
        rcases List.mem_cons.mp hc with rfl | hc
        · exact Or.inr rfl
        · exact ih c hc

theorem stripDashes_mem (l : List Char) : ∀ c ∈ stripDashes l, c ∈ l := by
  intro c hc
  unfold stripDashes at hc
  have h1 := (List.rdropWhile_prefix (fun c => c == '-')
    (l.dropWhile (fun c => c == '-'))).sublist.subset hc
  exact (List.dropWhile_suffix (fun c => c == '-')).sublist.subset h1

theorem stripDashes_head (l : List Char) : (stripDashes l).head? ≠ some '-' := by
  intro hsome
  obtain ⟨t, ht⟩ := List.rdropWhile_prefix (fun c => c == '-')
    (l.dropWhile (fun c => c == '-'))
  rcases hw : stripDashes l with _ | ⟨a, u⟩
  · rw [hw] at hsome; simp at hsome
  · have ha : a = '-' := by rw [hw] at hsome; simpa using hsome
    unfold stripDashes at hw
    rw [hw] at ht
    have hne : l.dropWhile (fun c => c == '-') ≠ [] := by
      intro h; rw [h] at ht; simp at ht
    have hhead : (l.dropWhile (fun c => c == '-')).head hne = a := by
      have : l.dropWhile (fun c => c == '-') = a :: (u ++ t) := by
        rw [← ht]; simp
      simp [this]
    have hnot := List.head_dropWhile_not (fun c => c == '-') l hne
    rw [hhead, ha] at hnot
    simp at hnot

theorem stripDashes_getLast (l : List Char) : (stripDashes l).getLast? ≠ some '-' := by
  intro hsome
  have hne : stripDashes l ≠ [] := by
    intro h; rw [h] at hsome; simp at hsome
  have hlast := List.rdropWhile_last_not (fun c => c == '-')
    (l.dropWhile (fun c => c == '-')) hne
  rw [List.getLast?_eq_getLast _ hne] at hsome
  have heq : (stripDashes l).getLast hne = '-' := by simpa using hsome
  unfold stripDashes at heq
  rw [heq] at hlast
  simp at hlast

/-- C10 counterexample: with a 127-character state name the untruncated
slug is longer than 128 characters and the `[:128]` cut falls exactly on
a hyphen, so the assigned id ENDS in a hyphen — the claimed
no-trailing-hyphen invariant is false of the code. -/
theorem signal_id_trailing_hyphen :
    (signal_id (String.mk (List.replicate 127 'a')) "b" "t" "l").toList.getLast? =
      some '-' := by decide

/-- C10 (amended): every Signal id assigned by the pipeline is a string
of at most 128 characters drawn only from lowercase letters, digits and
hyphens, with no leading hyphen; and whenever the untruncated slug is at
most 128 characters long (so the `[:128]` cut is a no-op) there is no
trailing hyphen either.  Truncation at 128 characters may leave a
trailing hyphen (see `signal_id_trailing_hyphen`). -/
theorem signal_id_format (st dist title link : String) :
    (signal_id st dist title link).length ≤ 128 ∧
    (∀ c ∈ (signal_id st dist title link).toList, isSlugChar c = true ∨ c = '-') ∧
    (signal_id st dist title link).toList.head? ≠ some '-' ∧
    ((slugify (st ++ "-" ++ dist ++ "-" ++ title ++ "-" ++ link)).length ≤ 128 →
      (signal_id st dist title link).toList.getLast? ≠ some '-') := by
  refine ⟨?_, ?_, ?_, ?_⟩
  · show (List.take 128 _).length ≤ 128
    simp [List.length_take]
  · intro c hc
    have hc1 : c ∈ stripDashes (collapseRuns
        (((st ++ "-" ++ dist ++ "-" ++ title ++ "-" ++ link).toList).map Char.toLower)) :=
      List.take_subset _ _ hc
    exact collapseRuns_mem _ c (stripDashes_mem _ c hc1)
  · show (List.take 128 (stripDashes _)).head? ≠ some '-'
    rw [List.head?_take]
    simp only [OfNat.ofNat_ne_zero, if_false]
    exact stripDashes_head _
  · intro hlen
    show (List.take 128 (stripDashes _)).getLast? ≠ some '-'
    rw [List.take_of_length_le hlen]
    exact stripDashes_getLast _

/-- Witness for `signal_id_format` at concrete inputs. -/
theorem signal_id_format_witness :
    (isSlugChar 'o' = true ∨ 'o' = '-') ∧
    (signal_id "Ohio" "Springfield" "Robotics" "http://x.gov").toList.getLast? ≠ some '-' :=
  ⟨(signal_id_format "Ohio" "Springfield" "Robotics" "http://x.gov").2.1 'o' (by decide),
   (signal_id_format "Ohio" "Springfield" "Robotics" "http://x.gov").2.2.2 (by decide)⟩

/-- C5: migration is non-destructive.  For every loaded Signal, migrating
it changes no field other than by filling an absent `trigger` or
`breakdown`: `id`, `state`, `district`, `source_county`, `title`, `link`,
`published`, `score` (when already present it is untouched — in fact it
is never written at all), `created_at` and the parse abstractions are
identical after migration; a present `trigger` or `breakdown` is kept,
and a record already carrying both fields is returned entirely
unchanged. -/
theorem migrate_signal_frame (fitOf : String → String → Int) (s : StoredSignal) :
    (migrate_signal fitOf s).id = s.id ∧
    (migrate_signal fitOf s).state = s.state ∧
    (migrate_signal fitOf s).district = s.district ∧
    (migrate_signal fitOf s).source_county = s.source_county ∧
    (migrate_signal fitOf s).title = s.title ∧
    (migrate_signal fitOf s).link = s.link ∧
    (migrate_signal fitOf s).published = s.published ∧
    (migrate_signal fitOf s).score = s.score ∧
    (migrate_signal fitOf s).created_at = s.created_at ∧
    (migrate_signal fitOf s).dom = s.dom ∧
    (migrate_signal fitOf s).pubAge = s.pubAge ∧
    (s.trigger.isSome = true → (migrate_signal fitOf s).trigger = s.trigger) ∧
    (s.breakdown.isSome = true → (migrate_signal fitOf s).breakdown = s.breakdown) ∧
    (s.trigger.isSome = true → s.breakdown.isSome = true →
      migrate_signal fitOf s = s) := by
  unfold migrate_signal
  by_cases ht : s.trigger.isNone <;> by_cases hb : s.breakdown.isNone <;>
    simp_all [Option.isNone_iff_eq_none, Option.isSome_iff_exists]

/-- Witness for `migrate_signal_frame`: a fully populated record is left
unchanged. -/
theorem migrate_signal_frame_witness :
    migrate_signal (fun _ _ => 50)
      { id := "oh-x-t-l", state := "Ohio", district := "X", source_county := "C",
        title := "T", link := "L", published := "2025-01-01", score := some 80,
        created_at := "2025-01-02", trigger := some "Other",
        breakdown := some { recency := 25, budget := 20, stem := 20, fit := 0, source := 15 },
        dom := "", pubAge := some 0 } =
      { id := "oh-x-t-l", state := "Ohio", district := "X", source_county := "C",
        title := "T", link := "L", published := "2025-01-01", score := some 80,
        created_at := "2025-01-02", trigger := some "Other",
        breakdown := some { recency := 25, budget := 20, stem := 20, fit := 0, source := 15 },
        dom := "", pubAge := some 0 } :=
  (migrate_signal_frame (fun _ _ => 50) _).2.2.2.2.2.2.2.2.2.2.2.2.2 (by decide) (by decide)

/-- C7 counterexample: the scenario item (title as in the spec, published
one day ago, fit rating 80, a `.k12.oh.us` domain) scores 88, not 92: the
subject sub-score is 14 (8 for the standalone word STEM plus 6 for
makerspace; the +12 tier requires `robotic(s)`, which the title lacks),
not the claimed 18. -/
theorem scenario_score_counterexample :
    (compute_signal_score (fun _ _ => 80) "Ohio" "Springfield City Schools"
        "District Board Approves $4M Bond for New STEM Makerspace"
        "https://www.springfield.k12.oh.us/news/bond"
        "www.springfield.k12.oh.us" (some 86400)).1 = 88 ∧
    (88 : Nat) ≠ 92 ∧
    (compute_signal_score (fun _ _ => 80) "Ohio" "Springfield City Schools"
        "District Board Approves $4M Bond for New STEM Makerspace"
        "https://www.springfield.k12.oh.us/news/bond"
        "www.springfield.k12.oh.us" (some 86400)).2.stem = 14 := by
  refine ⟨by decide, by decide, by decide⟩

/-- C7 (amended): the scenario item classifies as Funding & Facilities
and scores exactly 88 with breakdown 25 (recency) + 18 (budget) + 14
(subject) + 16 (fit) + 15 (source); 88 clears the default threshold of
70, and a run over this single item from an empty store produces exactly
one Intake Queue entry and one new Signal. -/
theorem scenario_amended :
    classify_trigger ("District Board Approves $4M Bond for New STEM Makerspace"
        ++ " " ++ "https://www.springfield.k12.oh.us/news/bond") =
      "Funding & Facilities" ∧
    compute_signal_score (fun _ _ => 80) "Ohio" "Springfield City Schools"
        "District Board Approves $4M Bond for New STEM Makerspace"
        "https://www.springfield.k12.oh.us/news/bond"
        "www.springfield.k12.oh.us" (some 86400) =
      (88, { recency := 25, budget := 18, stem := 14, fit := 16, source := 15 }) ∧
    DEFAULT_THRESHOLD ≤ (88 : Int) ∧
    (run_radar { sinceDays := 120, threshold := 70 } (fun _ _ => 80)
        "2025-10-12T00:00:00+00:00" [] []
        [{ st := "Ohio", dist := "Springfield City Schools", source_county := "Clark",
           title := "District Board Approves $4M Bond for New STEM Makerspace",
           link := "https://www.springfield.k12.oh.us/news/bond",
           published := "2025-10-11T00:00:00+00:00",
           dom := "www.springfield.k12.oh.us",
           ageSecs := some 86400 }]).intake.length = 1 ∧
    (run_radar { sinceDays := 120, threshold := 70 } (fun _ _ => 80)
        "2025-10-12T00:00:00+00:00" [] []
        [{ st := "Ohio", dist := "Springfield City Schools", source_county := "Clark",
           title := "District Board Approves $4M Bond for New STEM Makerspace",
           link := "https://www.springfield.k12.oh.us/news/bond",
           published := "2025-10-11T00:00:00+00:00",
           dom := "www.springfield.k12.oh.us",
           ageSecs := some 86400 }]).newSignals.length = 1 := by
  refine ⟨by decide, by decide, by decide, by decide, by decide⟩

/-- C9 counterexample: `write_report` embeds the invocation clock in its
header line, so two invocations over the SAME (empty) store and the SAME
threshold but at different times produce different text documents — the
renderer is not a pure function of store content and threshold alone. -/
theorem write_report_time_dependent :
    write_report "2025-01-01 00:00" [] 70 ≠ write_report "2025-01-02 00:00" [] 70 := by
  unfold write_report report_lines
  rw [List.mergeSort_nil]
  decide

/-- C9 (amended): the renderer is a pure function of the store content,
the threshold and the invocation timestamp; the timestamp appears only in
the first (header) line, so every line after the first is determined by
the store and threshold alone, and rendering never mutates the store (the
embedding returns only text and `sorted` copies rather than reorders the
list). -/
theorem report_pure_modulo_header (n1 n2 : String) (db : List Signal) (t : Int) :
    (report_lines n1 db t).tail = (report_lines n2 db t).tail ∧
    write_report n1 db t = String.intercalate "\n" (report_lines n1 db t) := by
  exact ⟨rfl, rfl⟩

/-! ## Helper lemmas: the per-item fold -/

theorem foldl_intake_inv (cfg : RadarConfig) (fitOf : String → String → Int) (now : String) :
    ∀ (items : List FeedItem) (st : RunState) (base : List IntakeRecord),
      st.intake = base ++ (st.newSignals.filter
        (fun s => decide (cfg.threshold ≤ (s.score : Int)))).map intake_of →
      (items.foldl (process_item cfg fitOf now) st).intake =
        base ++ ((items.foldl (process_item cfg fitOf now) st).newSignals.filter
          (fun s => decide (cfg.threshold ≤ (s.score : Int)))).map intake_of := by
  intro items
  induction items with
  | nil => intro st base h; simpa using h
  | cons it rest ih =>
    intro st base h
    simp only [List.foldl_cons]
    apply ih
    simp only [process_item]
    split_ifs with h1 h2 h3
    · exact h
    · exact h
    · simp only [List.filter_append, List.map_append, h, List.filter, decide_eq_true h3]
      simp [intake_of]
    · simp only [List.filter_append, List.map_append, h, List.filter,
        decide_eq_false h3]
      simp

theorem process_item_ids_mono (cfg : RadarConfig) (fitOf : String → String → Int)
    (now : String) (st : RunState) (it : FeedItem) (x : String) :
    x ∈ st.existingIds → x ∈ (process_item cfg fitOf now st it).existingIds := by
  intro hx
  simp only [process_item]
  split_ifs <;> simp [hx]

theorem foldl_ids_mono (cfg : RadarConfig) (fitOf : String → String → Int) (now : String) :
    ∀ (items : List FeedItem) (st : RunState) (x : String),
      x ∈ st.existingIds → x ∈ (items.foldl (process_item cfg fitOf now) st).existingIds := by
  intro items
  induction items with
  | nil => intro st x hx; simpa using hx
  | cons it rest ih =>
    intro st x hx
    simp only [List.foldl_cons]
    exact ih _ x (process_item_ids_mono cfg fitOf now st it x hx)

theorem process_item_skip (cfg : RadarConfig) (fitOf : String → String → Int)
    (now : String) (st : RunState) (it : FeedItem) :
    signal_id it.st it.dist it.title it.link ∈ st.existingIds →
    process_item cfg fitOf now st it = st := by
  intro hx
  simp only [process_item]
  split_ifs with h1 h2 h3
  · rfl
  · rfl
  · exact absurd (List.elem_iff.mpr hx) h2
  · exact absurd (List.elem_iff.mpr hx) h2

theorem process_item_ids_eq (cfg : RadarConfig) (fitOf : String → String → Int)
    (now : String) (st : RunState) (it : FeedItem) :
    (∀ x, x ∈ st.existingIds ↔ x ∈ st.signals.map (fun s => s.id)) →
    ∀ x, x ∈ (process_item cfg fitOf now st it).existingIds ↔
      x ∈ (process_item cfg fitOf now st it).signals.map (fun s => s.id) := by
  intro h x
  simp only [process_item]
  split_ifs with h1 h2 h3
  · exact h x
  · exact h x
  · simp only [List.map_append, List.mem_append, List.mem_cons, List.map_cons,
      List.map_nil, List.mem_singleton, h x]
    tauto
  · simp only [List.map_append, List.mem_append, List.mem_cons, List.map_cons,
      List.map_nil, List.mem_singleton, h x]
    tauto

theorem foldl_ids_eq (cfg : RadarConfig) (fitOf : String → String → Int) (now : String) :
    ∀ (items : List FeedItem) (st : RunState),
      (∀ x, x ∈ st.existingIds ↔ x ∈ st.signals.map (fun s => s.id)) →
      ∀ x, x ∈ (items.foldl (process_item cfg fitOf now) st).existingIds ↔
        x ∈ (items.foldl (process_item cfg fitOf now) st).signals.map (fun s => s.id) := by
  intro items
  induction items with
  | nil => intro st h; simpa using h
  | cons a rest ih =>
    intro st h
    simp only [List.foldl_cons]
    exact ih _ (process_item_ids_eq cfg fitOf now st a h)

theorem foldl_skip_all (cfg : RadarConfig) (fitOf : String → String → Int) (now : String) :
    ∀ (items : List FeedItem) (st : RunState),
      (∀ it ∈ items, too_old cfg it = true ∨
        signal_id it.st it.dist it.title it.link ∈ st.existingIds) →
      items.foldl (process_item cfg fitOf now) st = st := by
  intro items
  induction items with
  | nil => intro st _; rfl
  | cons it rest ih =>
    intro st h
    have hstep : process_item cfg fitOf now st it = st := by
      rcases h it (List.mem_cons_self it rest) with hold | hmem
      · simp only [process_item]
        rw [if_pos hold]
      · exact process_item_skip cfg fitOf now st it hmem
    simp only [List.foldl_cons, hstep]
    exact ih st (fun x hx => h x (List.mem_cons_of_mem _ hx))

theorem foldl_inserted_mem (cfg : RadarConfig) (fitOf : String → String → Int) (now : String) :
    ∀ (items : List FeedItem) (st : RunState) (it : FeedItem),
      it ∈ items → too_old cfg it = false →
      signal_id it.st it.dist it.title it.link ∈
        (items.foldl (process_item cfg fitOf now) st).existingIds := by
  intro items
  induction items with
  | nil => intro st it h; simp at h
  | cons a rest ih =>
    intro st it hmem hfresh
    simp only [List.foldl_cons]
    rcases List.mem_cons.mp hmem with rfl | hmem2
    · apply foldl_ids_mono
      have hno : ¬(too_old cfg it = true) := by simp [hfresh]
      simp only [process_item]
      rw [if_neg hno]
      split_ifs with hc
      · exact List.elem_iff.mp hc
      · exact List.mem_cons_self _ _
      · exact List.mem_cons_self _ _
    · exact ih _ it hmem2 hfresh

/-- C3: threshold gate.  The intake queue after a run is exactly the
initial queue followed by the projections of those Signals newly inserted
during the run whose score clears the threshold — so a new Signal gets an
IntakeRecord if and only if `score >= threshold`, and items dropped as
duplicates (which never enter `newSignals`) never produce an intake
entry. -/
theorem run_radar_threshold_gate (cfg : RadarConfig) (fitOf : String → String → Int)
    (now : String) (db : List Signal) (intake0 : List IntakeRecord)
    (items : List FeedItem) :
    (run_radar cfg fitOf now db intake0 items).intake =
      intake0 ++ ((run_radar cfg fitOf now db intake0 items).newSignals.filter
        (fun s => decide (cfg.threshold ≤ (s.score : Int)))).map intake_of := by
  unfold run_radar
  apply foldl_intake_inv
  simp

/-- C1: idempotence of the pipeline over the Signal Store.  Running the
pipeline a second time with identical fetch results (the same item
stream, the same configuration) inserts zero new Signals, and the store
cardinality after run 2 equals that after run 1; moreover, within one
run, an item whose id is already in the existence index — persisted
before the run or inserted earlier in the same run — leaves the state
untouched (it is silently dropped). -/
theorem run_radar_idempotent (cfg : RadarConfig) (fitOf : String → String → Int)
    (now now2 : String) (db : List Signal) (intake0 : List IntakeRecord)
    (items : List FeedItem) :
    (run_radar cfg fitOf now2
        (run_radar cfg fitOf now db intake0 items).signals
        (run_radar cfg fitOf now db intake0 items).intake items).newSignals = [] ∧
    (run_radar cfg fitOf now2
        (run_radar cfg fitOf now db intake0 items).signals
        (run_radar cfg fitOf now db intake0 items).intake items).signals.length =
      (run_radar cfg fitOf now db intake0 items).signals.length ∧
    (∀ (st : RunState) (it : FeedItem),
      signal_id it.st it.dist it.title it.link ∈ st.existingIds →
      process_item cfg fitOf now st it = st) := by
  have hids : ∀ x, x ∈ (run_radar cfg fitOf now db intake0 items).existingIds ↔
      x ∈ (run_radar cfg fitOf now db intake0 items).signals.map (fun s => s.id) := by
    unfold run_radar
    exact foldl_ids_eq cfg fitOf now items _ (fun x => Iff.rfl)
  have hnoop : run_radar cfg fitOf now2
      (run_radar cfg fitOf now db intake0 items).signals
      (run_radar cfg fitOf now db intake0 items).intake items =
      { signals := (run_radar cfg fitOf now db intake0 items).signals,
        existingIds := (run_radar cfg fitOf now db intake0 items).signals.map
          (fun s => s.id),
        newSignals := [],
        intake := (run_radar cfg fitOf now db intake0 items).intake } := by
    unfold run_radar
    apply foldl_skip_all
    intro it hit
    rcases hold : too_old cfg it with hf | ht
    · right
      show signal_id it.st it.dist it.title it.link ∈
        (List.foldl (process_item cfg fitOf now)
          { signals := db, existingIds := db.map (fun s => s.id),
            newSignals := [], intake := intake0 } items).signals.map (fun s => s.id)
      refine (hids _).mp ?_
      exact foldl_inserted_mem cfg fitOf now items _ it hit hold
    · exact Or.inl rfl
  refine ⟨?_, ?_, fun st it => process_item_skip cfg fitOf now st it⟩
  · rw [hnoop]
  · rw [hnoop]

/-- Witness for `run_radar_idempotent`: the drop conjunct at a concrete
state whose index already holds the fingerprint of the incoming item. -/
theorem run_radar_idempotent_witness :
    process_item { sinceDays := 120, threshold := 70 } (fun _ _ => 50) "2025-10-12"
      { signals := [], existingIds := ["ohio-x-t-http-x-gov"],
        newSignals := [], intake := [] }
      { st := "Ohio", dist := "X", source_county := "C", title := "T",
        link := "http://x.gov", published := "2025-10-11",
        dom := "x.gov", ageSecs := some 0 } =
      { signals := [], existingIds := ["ohio-x-t-http-x-gov"],
        newSignals := [], intake := [] } :=
  (run_radar_idempotent { sinceDays := 120, threshold := 70 } (fun _ _ => 50)
      "2025-10-12" "2025-10-12" [] [] []).2.2
    { signals := [], existingIds := ["ohio-x-t-http-x-gov"],
      newSignals := [], intake := [] }
    { st := "Ohio", dist := "X", source_county := "C", title := "T",
      link := "http://x.gov", published := "2025-10-11",
      dom := "x.gov", ageSecs := some 0 }
    (by decide)
